import Mathlib

/-!
Shallow embedding of the two notification scripts of this repository
(`notify_email.py` and `notify_telegram.py`) and proofs of the stated
properties of their message formatting, validation and dispatch logic.

Python-level behaviours (string `strip`/`upper`/`split`, truthiness of
optional strings, `int()` literal parsing, decimal rendering of integers)
are modelled explicitly; ambient effects (clock, filesystem, SMTP server,
HTTP transport) are passed in as explicit values so every function is pure.
-/

/-! ### Python string and value semantics -/

/-- Truthiness of an `Optional[str]` value: `None` and `""` are falsy. -/
def pyTruthyOpt : Option String → Bool
  | none => false
  | some s => s != ""

/-- Python `str.strip()`: remove whitespace from both ends. -/
def pyStrip (s : String) : String :=
  ⟨((s.data.dropWhile Char.isWhitespace).reverse.dropWhile Char.isWhitespace).reverse⟩

/-- Python `str.upper()` (ASCII letters, the only ones the claims use). -/
def pyUpper (s : String) : String :=
  ⟨s.data.map Char.toUpper⟩

/-- Split a character list at every occurrence of `sep` (Python `str.split(sep)`
with a one-character separator: `"".split(",") = [""]`). -/
def splitCharsOn (sep : Char) : List Char → List (List Char)
  | [] => [[]]
  | c :: cs =>
    if c = sep then [] :: splitCharsOn sep cs
    else
      match splitCharsOn sep cs with
      | [] => [[c]]
      | g :: gs => (c :: g) :: gs

/-- Python `s.split(sep)` for a one-character separator. -/
def pySplit (s : String) (sep : Char) : List String :=
  (splitCharsOn sep s.data).map List.asString

/-- Python `sep.join(xs)`. -/
def pyJoin (sep : String) : List String → String
  | [] => ""
  | [x] => x
  | x :: y :: xs => x ++ sep ++ pyJoin sep (y :: xs)

/-- Digit-sequence body of a Python integer literal: decimal digits with
single underscores allowed between digits. The flag records whether the
previous character was a digit (so underscores may not lead, trail or
repeat). Returns the decimal value. -/
def pyDigitsAux : List Char → Bool → Nat → Option Nat
  | [], lastDigit, acc => if lastDigit then some acc else none
  | c :: cs, lastDigit, acc =>
    if c.isDigit then pyDigitsAux cs true (acc * 10 + (c.toNat - 48))
    else if c = '_' && lastDigit then pyDigitsAux cs false acc
    else none

/-- Python `int(s)` on a decimal string literal: optional surrounding
whitespace, optional sign, digit sequence. `none` models a raised
`ValueError`. -/
def pyIntParse (s : String) : Option Int :=
  let core := ((s.data.dropWhile Char.isWhitespace).reverse.dropWhile Char.isWhitespace).reverse
  match core with
  | '+' :: r => (pyDigitsAux r false 0).map Int.ofNat
  | '-' :: r => (pyDigitsAux r false 0).map (fun n => -(n : Int))
  | r => (pyDigitsAux r false 0).map Int.ofNat

/-- Substring containment, used to state "the body contains the literal X". -/
def strContains (hay needle : String) : Prop :=
  ∃ pre suf, hay = pre ++ (needle ++ suf)

/-! ### Decimal rendering of integers

The script tests `str(port) == "465"`. To reason about that test for every
integer we prove that Lean's decimal rendering (the model of Python `str`
on `int`) is injective, via an explicit evaluation map. -/

/-- Value of a decimal digit character. -/
def decDigit (c : Char) : Nat := c.toNat - 48

/-- Decimal value of a digit string (most significant first). -/
def decval (l : List Char) : Nat := l.foldl (fun acc c => acc * 10 + decDigit c) 0

/-! ### Datetime model (the slice of `datetime`/`strftime` the scripts use) -/

/-- Wall-clock instant as rendered in some timezone. -/
structure PyDateTime where
  year : Nat
  month : Nat
  day : Nat
  hour : Nat
  minute : Nat
deriving DecidableEq, Repr

/-- strftime `%b`: abbreviated month name. -/
def monthAbbrev : Nat → String
  | 1 => "Jan" | 2 => "Feb" | 3 => "Mar" | 4 => "Apr" | 5 => "May" | 6 => "Jun"
  | 7 => "Jul" | 8 => "Aug" | 9 => "Sep" | 10 => "Oct" | 11 => "Nov" | 12 => "Dec"
  | _ => ""

/-- Zero-padded two-digit field (strftime `%d`, `%H`, `%M`). -/
def pad2 (n : Nat) : String := if n < 10 then "0" ++ Nat.repr n else Nat.repr n

/-- strftime `"%d %b %Y"`. -/
def strftimeDate (t : PyDateTime) : String :=
  pad2 t.day ++ " " ++ monthAbbrev t.month ++ " " ++ Nat.repr t.year

/-- strftime `"%H:%M"`. -/
def strftimeClock (t : PyDateTime) : String :=
  pad2 t.hour ++ ":" ++ pad2 t.minute

namespace NotifyEmail

/-- Ambient effects of `notify_email.py`, passed in explicitly: the clock
(current instant rendered in a given zone), which zone names `ZoneInfo`
accepts, the filesystem, MIME-type guessing, whether the SMTP send
succeeds, and whether the server accepts STARTTLS. -/
structure World where
  validZone : String → Bool
  clock : String → PyDateTime
  fsExists : String → Bool
  fileContent : String → List Nat
  guessType : String → Option String
  sendOk : Bool
  starttlsSupported : Bool

/-- Model of `_wib_now(tz_env)`: pick `tz_env` when truthy, else the `TZ`
environment value (defaulting to `"Asia/Jakarta"`); if `ZoneInfo` rejects
the name, fall back to `"Asia/Jakarta"`. -/
def wibNow (w : World) (tz_env : Option String) (envTZ : Option String) : PyDateTime :=
  let tzname := if pyTruthyOpt tz_env then tz_env.getD "" else envTZ.getD "Asia/Jakarta"
  if w.validZone tzname then w.clock tzname else w.clock "Asia/Jakarta"

/-- One attachment added by `EmailMessage.add_attachment`. -/
structure Attachment where
  content : List Nat
  maintype : String
  subtype : String
  filename : String
deriving DecidableEq, Repr

/-- The observable parts of the `EmailMessage` the script builds. -/
structure EmailMessage where
  fromAddr : String
  toHeader : String
  subject : String
  bodyText : String
  attachments : List Attachment
deriving DecidableEq, Repr

/-- Body template of `build_message` (the f-string block at lines 51-58). -/
def emailBody (site status duration : String) : String :=
  "Site     : " ++ site ++ "\n" ++
  "Summary:\n" ++
  "• Status   : " ++ status ++ "\n" ++
  "• Duration : " ++ duration ++ " seconds\n\n" ++
  "Check the attached HTML report for the full test results\n" ++
  "This report is auto-generated and maintained by Mazway"

/-- Model of `build_message`. -/
def build_message (w : World) (site status duration sender : String)
    (recipients : List String) (tz_env : Option String) (envTZ : Option String) :
    EmailMessage :=
  let now := wibNow w tz_env envTZ
  { fromAddr := sender
    toHeader := pyJoin ", " recipients
    subject := "PageSpeed Insight Report - " ++ strftimeDate now ++ " | " ++
      strftimeClock now ++ " WIB"
    bodyText := emailBody site status duration
    attachments := [] }

/-- Python `"a/b".split("/", 1)` unpacked into two components. -/
def splitTypeOnce (s : String) : String × String :=
  match pySplit s '/' with
  | [] => ("", "")
  | x :: rest => (x, pyJoin "/" rest)

/-- Python `os.path.basename` (POSIX flavour: text after the last slash). -/
def pyBasename (p : String) : String :=
  match (pySplit p '/').reverse with
  | [] => ""
  | x :: _ => x

/-- Model of `attach_file`: returns the (possibly extended) message and
whether the missing-attachment warning was printed to stderr. -/
def attach_file (w : World) (msg : EmailMessage) (path : Option String) :
    EmailMessage × Bool :=
  match path with
  | none => (msg, false)
  | some p =>
    if p = "" then (msg, false)
    else if w.fsExists p = false then (msg, true)
    else
      let ctype := match w.guessType p with
        | none => "application/octet-stream"
        | some c => if c = "" then "application/octet-stream" else c
      let parts := splitTypeOnce ctype
      ({ msg with attachments := msg.attachments ++
          [{ content := w.fileContent p, maintype := parts.1, subtype := parts.2,
             filename := pyBasename p }] }, false)

/-- Observable SMTP-session steps of `send_email`. -/
inductive SmtpEvent where
  | connectImplicitTLS
  | connectPlain
  | ehlo
  | starttlsOk
  | starttlsRefused
  | login
  | sendMessage
deriving DecidableEq, Repr

/-- The `if user and password: server.login(...)` step. -/
def loginEvents (user password : String) : List SmtpEvent :=
  if user ≠ "" ∧ password ≠ "" then [.login] else []

/-- Model of `send_email` as the list of session steps it performs. The
source tests `str(port) == "465"` to pick implicit TLS; otherwise it
connects plain, attempts STARTTLS, and on an SMTP exception continues
without the upgrade. -/
def send_email (port : Int) (user password : String) (starttlsSupported : Bool) :
    List SmtpEvent :=
  if toString port = "465" then
    .connectImplicitTLS :: (loginEvents user password ++ [.sendMessage])
  else
    .connectPlain :: .ehlo ::
      ((if starttlsSupported then [.starttlsOk, .ehlo] else [.starttlsRefused]) ++
        loginEvents user password ++ [.sendMessage])

/-- Environment variables read by `main` (`none` = unset). -/
structure Env where
  SMTP_HOST : Option String
  SMTP_PORT : Option String
  SMTP_USER : Option String
  SMTP_PASS : Option String
  EMAIL_FROM : Option String
  EMAIL_TO : Option String
  TZ : Option String

/-- Parsed CLI arguments (argparse guarantees `status` is one of the four
choices; `report` and `to` default to `None`). -/
structure Args where
  site : String
  status : String
  duration : String
  report : Option String
  «to» : Option String

/-- The `--status` choices accepted by argparse. -/
def statusChoices : List String := ["Success", "Fail", "Failed", "Success/Fail"]

/-- The recipient computation of line 150: split the truthy one of
`--to` / `EMAIL_TO` on commas, strip each entry, drop empties. -/
def recipientsOf (env : Env) (args : Args) : List String :=
  ((pySplit (if pyTruthyOpt args.«to» then args.«to».getD "" else env.EMAIL_TO.getD "") ',').map
    pyStrip).filter (fun e => e ≠ "")

/-- Outcome of a `main` run. `valueError` models the uncaught `int()`
exception at line 135; `exit2` carries the stderr diagnostic; `sendFailure`
models a transport exception propagating out of `send_email`;
`sent` carries the session steps, the final message and whether the
missing-attachment warning was printed. -/
inductive MainResult where
  | valueError
  | exit2 (diagnostic : String)
  | sendFailure (msg : EmailMessage) (attachWarned : Bool)
  | sent (events : List SmtpEvent) (msg : EmailMessage) (attachWarned : Bool)
deriving DecidableEq, Repr

/-- Process exit status produced by `raise SystemExit(main())`: `none`
when `main` raised instead of returning. -/
def MainResult.exitCode : MainResult → Option Nat
  | .valueError => none
  | .exit2 _ => some 2
  | .sendFailure _ _ => none
  | .sent _ _ _ => some 0

/-- Whether the run reached `send_email` (opened a network connection). -/
def MainResult.sendAttempted : MainResult → Bool
  | .valueError => false
  | .exit2 _ => false
  | .sendFailure _ _ => true
  | .sent _ _ _ => true

/-- Model of `main` (lines 131-167). -/
def main (w : World) (env : Env) (args : Args) : MainResult :=
  match pyIntParse (env.SMTP_PORT.getD "587") with
  | none => .valueError
  | some port =>
    let user := env.SMTP_USER.getD ""
    let password := env.SMTP_PASS.getD ""
    let env_to := env.EMAIL_TO.getD ""
    let tz_env := env.TZ.getD "Asia/Jakarta"
    if ¬ pyTruthyOpt env.SMTP_HOST = true ∨ ¬ pyTruthyOpt env.EMAIL_FROM = true ∨
        (env_to = "" ∧ ¬ pyTruthyOpt args.«to» = true) then
      .exit2 "[notify_email] Missing SMTP_HOST/EMAIL_FROM/EMAIL_TO. Set via env or GitHub Secrets."
    else
      let recipients := recipientsOf env args
      if recipients = [] then
        .exit2 "[notify_email] No recipients resolved."
      else
        let msg := build_message w args.site
          (if args.status = "Failed" then "Fail" else args.status)
          args.duration (env.EMAIL_FROM.getD "") recipients (some tz_env) env.TZ
        let attached := attach_file w msg args.report
        if w.sendOk then
          .sent (send_email port user password w.starttlsSupported) attached.1 attached.2
        else
          .sendFailure attached.1 attached.2

end NotifyEmail

namespace NotifyTelegram

/-- Decoded JSON values (the slice `json.loads` can produce). -/
inductive PyJson where
  | null
  | bool (b : Bool)
  | num (n : Int)
  | str (s : String)
  | arr (xs : List PyJson)
  | obj (fields : List (String × PyJson))

/-- Python truthiness of a decoded JSON value (`bool(x)`). -/
def PyJson.truthy : PyJson → Bool
  | .null => false
  | .bool b => b
  | .num n => n != 0
  | .str s => s != ""
  | .arr xs => !xs.isEmpty
  | .obj fs => !fs.isEmpty

/-- Python `dict.get(k)`: `None` when the key is absent. -/
def dictGet (fields : List (String × PyJson)) (k : String) : Option PyJson :=
  (fields.find? (fun kv => kv.1 == k)).map (fun kv => kv.2)

/-- Value of one form field of the POST body (the source dict holds
strings and one boolean). -/
inductive FormValue where
  | str (s : String)
  | bool (b : Bool)
deriving DecidableEq, Repr

/-- The single HTTP request `send_message` issues. -/
structure HttpRequest where
  url : String
  httpMethod : String
  fields : List (String × FormValue)
deriving DecidableEq, Repr

/-- Model of `send_message` (lines 15-26): the request it POSTs. -/
def send_message (token chat_id text : String) (parse_mode : String := "HTML") :
    HttpRequest :=
  { url := "https://api.telegram.org/bot" ++ token ++ "/sendMessage"
    httpMethod := "POST"
    fields := [("chat_id", .str chat_id), ("text", .str text),
      ("parse_mode", .str parse_mode),
      ("disable_web_page_preview", .bool true)] }

/-- Response handling of lines 69-75: `exit1` carries the raw response it
prints to stderr; `exit0` means the confirmation line was printed and
`main` returned 0. -/
inductive TgResult where
  | exit1 (raw : List (String × PyJson))
  | exit0

/-- Process exit status of the response-handling tail of `main`. -/
def TgResult.exitCode : TgResult → Nat
  | .exit1 _ => 1
  | .exit0 => 0

/-- Model of `ok = bool(res.get("ok")); if not ok: ... exit(1) ... return 0`. -/
def handleResponse (res : List (String × PyJson)) : TgResult :=
  if PyJson.truthy ((dictGet res "ok").getD .null) then .exit0 else .exit1 res

/-- Environment variables read by `main`. -/
structure Env where
  TELEGRAM_BOT_TOKEN : Option String
  TELEGRAM_CHAT_ID : Option String

/-- Parsed CLI arguments (argparse defaults: `site` has a literal default,
the rest default to `None`). -/
structure Args where
  status : String
  site : String
  duration : Option String
  dashboard : Option String
  extra : Option String

/-- The `env(name, required=True)` helper: `None` or a blank-after-strip
value is a hard failure (exit 2). -/
def envRequired (v : Option String) : Option String :=
  match v with
  | none => none
  | some s => if pyStrip s = "" then none else some s

/-- The status badge of lines 40-44. -/
def badgeOf (status : String) : String :=
  let s := pyUpper (pyStrip status)
  if s = "FAIL" ∨ s = "FAILED" then "❌ FAILED" else "✅ SUCCESS"

/-- Message text composition of lines 46-67. `now_str` stands for the
formatted current time (line 50), an ambient input. -/
def tgText (args : Args) (now_str : String) : String :=
  let lines :=
    ["<b>PageSpeed Insight Report</b>",
     "Status: <b>" ++ badgeOf args.status ++ "</b>",
     "Site: <code>" ++ args.site ++ "</code>"] ++
    (if pyTruthyOpt args.duration then
      ["Duration: <b>" ++ args.duration.getD "" ++ " s</b>"] else []) ++
    ["Time: " ++ now_str] ++
    (if pyTruthyOpt args.dashboard then
      ["Dashboard: " ++ args.dashboard.getD ""] else []) ++
    (if pyTruthyOpt args.extra then [args.extra.getD ""] else [])
  pyJoin "\n" lines

/-- Outcome of a `main` run: `exit2` for a missing required env variable
(no request made); `ran` carries the one request issued and the handling
of the decoded response. -/
inductive TgMain where
  | exit2
  | ran (req : HttpRequest) (result : TgResult)

/-- Number of HTTP requests a run performs. -/
def TgMain.requestCount : TgMain → Nat
  | .exit2 => 0
  | .ran _ _ => 1

/-- Model of `main` (lines 28-75). `now_str` is the formatted time and
`response` the decoded JSON object the API returns. -/
def main (env : Env) (args : Args) (now_str : String)
    (response : List (String × PyJson)) : TgMain :=
  match envRequired env.TELEGRAM_BOT_TOKEN with
  | none => .exit2
  | some token =>
    match envRequired env.TELEGRAM_CHAT_ID with
    | none => .exit2
    | some chat_id =>
      .ran (send_message token chat_id (tgText args now_str)) (handleResponse response)

end NotifyTelegram

/-- Shared concrete example world used to instantiate theorems. -/
def Wex : NotifyEmail.World :=
  { validZone := fun _ => true
    clock := fun _ => { year := 2025, month := 1, day := 2, hour := 3, minute := 4 }
    fsExists := fun _ => false
    fileContent := fun _ => []
    guessType := fun _ => none
    sendOk := true
    starttlsSupported := true }

/-! ## Theorems -/

theorem decDigit_digitChar : ∀ m < 10, decDigit (Nat.digitChar m) = m := by decide

theorem foldl_toDigitsCore (f : Nat) :
    ∀ (n : Nat) (l : List Char), n < 10 ^ f →
      (Nat.toDigitsCore 10 f n l).foldl (fun acc c => acc * 10 + decDigit c) 0 =
        l.foldl (fun acc c => acc * 10 + decDigit c) n := by
  induction f with
  | zero =>
    intro n l hn
    have hz : n = 0 := by simpa using hn
    subst hz
    simp [Nat.toDigitsCore]
  | succ f ih =>
    intro n l hn
    by_cases hdiv : n / 10 = 0
    · have hlt : n < 10 := by omega
      have hmod : n % 10 = n := Nat.mod_eq_of_lt hlt
      simp only [Nat.toDigitsCore, hdiv, if_true, List.foldl]
      rw [decDigit_digitChar (n % 10) (Nat.mod_lt _ (by norm_num)), hmod,
        Nat.zero_mul, Nat.zero_add]
    · have hlt : n / 10 < 10 ^ f := by
        apply (Nat.div_lt_iff_lt_mul (by norm_num : 0 < 10)).mpr
        calc n < 10 ^ (f + 1) := hn
        _ = 10 ^ f * 10 := by ring
      have hrec := ih (n / 10) (Nat.digitChar (n % 10) :: l) hlt
      simp only [Nat.toDigitsCore, hdiv, if_false]
      rw [hrec]
      simp only [List.foldl]
      rw [decDigit_digitChar (n % 10) (Nat.mod_lt _ (by norm_num))]
      have hsplit : n / 10 * 10 + n % 10 = n := by omega
      rw [hsplit]

theorem decval_repr (n : Nat) : decval (Nat.repr n).data = n := by
  have hbound : n < 10 ^ (n + 1) := by
    calc n < 2 ^ n := Nat.lt_two_pow n
    _ ≤ 10 ^ n := Nat.pow_le_pow_left (by norm_num) n
    _ ≤ 10 ^ (n + 1) := Nat.pow_le_pow_right (by norm_num) (Nat.le_succ n)
  have h := foldl_toDigitsCore (n + 1) n [] hbound
  simpa [decval, Nat.repr, Nat.toDigits, List.asString] using h

theorem natRepr_inj {a b : Nat} (h : Nat.repr a = Nat.repr b) : a = b := by
  have := decval_repr a
  rw [h, decval_repr b] at this
  exact this.symm

/-- The only integer whose decimal rendering is `"465"` is `465`. -/
theorem toString_eq_465 {p : Int} (h : toString p = "465") : p = 465 := by
  cases p with
  | ofNat m =>
    have hm : Nat.repr m = "465" := h
    have : m = 465 := natRepr_inj (by rw [hm]; rfl)
    simp [this]
  | negSucc m =>
    exfalso
    have hdata : ("-" ++ toString (m + 1)).data = ("465" : String).data :=
      congrArg String.data h
    simp [String.data_append] at hdata


/-! ### Helper lemmas -/

theorem pyJoin_cons_cons (sep x y : String) (xs : List String) :
    pyJoin sep (x :: y :: xs) = x ++ sep ++ pyJoin sep (y :: xs) := rfl

theorem recipientsOf_empty_of_blank (env : NotifyEmail.Env) (args : NotifyEmail.Args)
    (h1 : env.EMAIL_TO.getD "" = "") (h2 : pyTruthyOpt args.«to» = false) :
    NotifyEmail.recipientsOf env args = [] := by
  unfold NotifyEmail.recipientsOf
  rw [h2, h1, if_neg (by decide : ¬ (false = true))]
  decide

theorem attach_file_bodyText (w : NotifyEmail.World) (m : NotifyEmail.EmailMessage)
    (p : Option String) :
    ((NotifyEmail.attach_file w m p).1).bodyText = m.bodyText := by
  unfold NotifyEmail.attach_file
  cases p with
  | none => rfl
  | some q =>
    by_cases hq : q = ""
    · simp [hq]
    · simp [hq]
      split <;> rfl

theorem emailBody_contains_site (site status duration : String) :
    strContains (NotifyEmail.emailBody site status duration) site := by
  refine ⟨"Site     : ", ?_, ?_⟩
  · exact "\n" ++ "Summary:\n" ++ "• Status   : " ++ status ++ "\n" ++
      "• Duration : " ++ duration ++ " seconds\n\n" ++
      "Check the attached HTML report for the full test results\n" ++
      "This report is auto-generated and maintained by Mazway"
  · simp [NotifyEmail.emailBody, String.append_assoc]

theorem emailBody_contains_status (site status duration : String) :
    strContains (NotifyEmail.emailBody site status duration) status := by
  refine ⟨"Site     : " ++ site ++ "\n" ++ "Summary:\n" ++ "• Status   : ", ?_, ?_⟩
  · exact "\n" ++ "• Duration : " ++ duration ++ " seconds\n\n" ++
      "Check the attached HTML report for the full test results\n" ++
      "This report is auto-generated and maintained by Mazway"
  · simp [NotifyEmail.emailBody, String.append_assoc]

theorem emailBody_contains_duration (site status duration : String) :
    strContains (NotifyEmail.emailBody site status duration) duration := by
  refine ⟨"Site     : " ++ site ++ "\n" ++ "Summary:\n" ++ "• Status   : " ++ status ++
    "\n" ++ "• Duration : ", ?_, ?_⟩
  · exact " seconds\n\n" ++
      "Check the attached HTML report for the full test results\n" ++
      "This report is auto-generated and maintained by Mazway"
  · simp [NotifyEmail.emailBody, String.append_assoc]

theorem email_main_success_shape (w : NotifyEmail.World) (env : NotifyEmail.Env)
    (args : NotifyEmail.Args) (port : Int)
    (hport : pyIntParse (env.SMTP_PORT.getD "587") = some port)
    (hhost : pyTruthyOpt env.SMTP_HOST = true)
    (hsender : pyTruthyOpt env.EMAIL_FROM = true)
    (hrec : NotifyEmail.recipientsOf env args ≠ [])
    (hsend : w.sendOk = true) :
    NotifyEmail.main w env args =
      .sent
        (NotifyEmail.send_email port (env.SMTP_USER.getD "") (env.SMTP_PASS.getD "")
          w.starttlsSupported)
        (NotifyEmail.attach_file w
          (NotifyEmail.build_message w args.site
            (if args.status = "Failed" then "Fail" else args.status) args.duration
            (env.EMAIL_FROM.getD "") (NotifyEmail.recipientsOf env args)
            (some (env.TZ.getD "Asia/Jakarta")) env.TZ) args.report).1
        (NotifyEmail.attach_file w
          (NotifyEmail.build_message w args.site
            (if args.status = "Failed" then "Fail" else args.status) args.duration
            (env.EMAIL_FROM.getD "") (NotifyEmail.recipientsOf env args)
            (some (env.TZ.getD "Asia/Jakarta")) env.TZ) args.report).2 := by
  have hthird : ¬ (env.EMAIL_TO.getD "" = "" ∧ ¬ pyTruthyOpt args.«to» = true) := by
    rintro ⟨h1, h2⟩
    exact hrec (recipientsOf_empty_of_blank env args h1 (by simpa using h2))
  unfold NotifyEmail.main
  rw [hport]
  simp only [hhost, hsender, not_true_eq_false, false_or]
  rw [if_neg (by exact fun h => hthird h)]
  rw [if_neg hrec, hsend]
  simp

/-! ### Claim theorems -/

/-- C9: when `SMTP_PORT` is set to a string that is not a valid integer
literal, `main` hits the uncaught `int()` conversion error before any
validation check runs, so the run ends with neither exit code 0 nor the
validation exit code 2, and no send is attempted. -/
theorem email_invalid_port_value_error (w : NotifyEmail.World) (env : NotifyEmail.Env)
    (args : NotifyEmail.Args) (s : String)
    (hset : env.SMTP_PORT = some s) (hbad : pyIntParse s = none) :
    NotifyEmail.main w env args = .valueError ∧
      (NotifyEmail.main w env args).exitCode ≠ some 0 ∧
      (NotifyEmail.main w env args).exitCode ≠ some 2 ∧
      (NotifyEmail.main w env args).sendAttempted = false := by
  have hmain : NotifyEmail.main w env args = .valueError := by
    unfold NotifyEmail.main
    rw [hset, Option.getD_some, hbad]
  rw [hmain]
  exact ⟨rfl, by simp [NotifyEmail.MainResult.exitCode],
    by simp [NotifyEmail.MainResult.exitCode], rfl⟩

/-- Witness for C9 at `SMTP_PORT = "abc"`. -/
theorem email_invalid_port_value_error_witness :
    pyIntParse "abc" = none ∧
      NotifyEmail.main Wex ⟨none, some "abc", none, none, none, none, none⟩
        ⟨"s", "Success", "1", none, none⟩ = .valueError :=
  ⟨by decide,
    (email_invalid_port_value_error Wex ⟨none, some "abc", none, none, none, none, none⟩
      ⟨"s", "Success", "1", none, none⟩ "abc" rfl (by decide)).1⟩

/-- C2 counterexample: an environment with `SMTP_HOST` unset (so the claim
demands exit code 2) but `SMTP_PORT = "abc"`, where `main` instead raises
the conversion error and the process exits with neither code 0 nor 2. -/
theorem email_validation_exit2_cex :
    (⟨none, some "abc", none, none, none, none, none⟩ : NotifyEmail.Env).SMTP_HOST = none ∧
      NotifyEmail.main Wex ⟨none, some "abc", none, none, none, none, none⟩
        ⟨"s", "Success", "1", none, none⟩ = .valueError ∧
      (NotifyEmail.main Wex ⟨none, some "abc", none, none, none, none, none⟩
        ⟨"s", "Success", "1", none, none⟩).exitCode ≠ some 2 :=
  ⟨rfl, by decide, by decide⟩

/-- C2 (amended): provided `SMTP_PORT` is unset or parses as an integer
literal, a missing/empty `SMTP_HOST`, a missing/empty `EMAIL_FROM`, or an
empty resolved recipient list (after splitting `--to`, or `EMAIL_TO` when
`--to` is absent, on commas and trimming) makes `main` return exit code 2
and `send_email` is never reached. -/
theorem email_validation_exit2 (w : NotifyEmail.World) (env : NotifyEmail.Env)
    (args : NotifyEmail.Args)
    (hport : pyIntParse (env.SMTP_PORT.getD "587") ≠ none)
    (hcond : pyTruthyOpt env.SMTP_HOST = false ∨ pyTruthyOpt env.EMAIL_FROM = false ∨
      NotifyEmail.recipientsOf env args = []) :
    (∃ d, NotifyEmail.main w env args = .exit2 d) ∧
      (NotifyEmail.main w env args).exitCode = some 2 ∧
      (NotifyEmail.main w env args).sendAttempted = false := by
  obtain ⟨port, hp⟩ := Option.ne_none_iff_exists'.mp hport
  have hm : ∃ d, NotifyEmail.main w env args = .exit2 d := by
    unfold NotifyEmail.main
    rw [hp]
    simp only
    by_cases h1 : (¬ pyTruthyOpt env.SMTP_HOST = true ∨ ¬ pyTruthyOpt env.EMAIL_FROM = true ∨
        (env.EMAIL_TO.getD "" = "" ∧ ¬ pyTruthyOpt args.«to» = true))
    · rw [if_pos h1]
      exact ⟨_, rfl⟩
    · have hhost : pyTruthyOpt env.SMTP_HOST = true := by
        by_contra hc
        exact h1 (Or.inl hc)
      have hsender : pyTruthyOpt env.EMAIL_FROM = true := by
        by_contra hc
        exact h1 (Or.inr (Or.inl hc))
      have hrecs : NotifyEmail.recipientsOf env args = [] := by
        rcases hcond with h | h | h
        · rw [h] at hhost; exact absurd hhost (by decide)
        · rw [h] at hsender; exact absurd hsender (by decide)
        · exact h
      rw [if_neg h1, if_pos hrecs]
      exact ⟨_, rfl⟩
  obtain ⟨d, hd⟩ := hm
  rw [hd]
  exact ⟨⟨d, rfl⟩, rfl, rfl⟩

/-- Witness for the amended C2 at a concrete environment missing `EMAIL_FROM`. -/
theorem email_validation_exit2_witness :
    pyIntParse ((none : Option String).getD "587") ≠ none ∧
      (∃ d, NotifyEmail.main Wex ⟨some "h", none, none, none, none, none, none⟩
        ⟨"s", "Success", "1", none, none⟩ = .exit2 d) :=
  ⟨by decide,
    (email_validation_exit2 Wex ⟨some "h", none, none, none, none, none, none⟩
      ⟨"s", "Success", "1", none, none⟩ (by decide) (Or.inr (Or.inl rfl))).1⟩

/-- C1: for every site, status, duration, sender, non-empty recipient list
and timezone configuration, `build_message` yields a subject of the exact
form "PageSpeed Insight Report - {day} {monthAbbrev} {year} | {HH:MM} WIB"
(the "WIB" suffix is a literal, present whatever the configured zone is)
and a body containing the literal site, status and duration strings. -/
theorem build_message_subject_and_body (w : NotifyEmail.World)
    (site status duration sender : String) (recipients : List String)
    (tz_env envTZ : Option String) (hrec : recipients ≠ []) :
    (NotifyEmail.build_message w site status duration sender recipients tz_env envTZ).subject =
      "PageSpeed Insight Report - " ++ strftimeDate (NotifyEmail.wibNow w tz_env envTZ) ++
        " | " ++ strftimeClock (NotifyEmail.wibNow w tz_env envTZ) ++ " WIB" ∧
    strContains (NotifyEmail.build_message w site status duration sender recipients
      tz_env envTZ).bodyText site ∧
    strContains (NotifyEmail.build_message w site status duration sender recipients
      tz_env envTZ).bodyText status ∧
    strContains (NotifyEmail.build_message w site status duration sender recipients
      tz_env envTZ).bodyText duration :=
  ⟨rfl, emailBody_contains_site site status duration,
    emailBody_contains_status site status duration,
    emailBody_contains_duration site status duration⟩

/-- Witness for C1 at a concrete invocation. -/
theorem build_message_subject_and_body_witness :
    (["a@b"] : List String) ≠ [] ∧
      strContains (NotifyEmail.build_message Wex "SITE" "Success" "4.99" "f@x" ["a@b"]
        (some "Asia/Jakarta") none).bodyText "SITE" :=
  ⟨by decide,
    (build_message_subject_and_body Wex "SITE" "Success" "4.99" "f@x" ["a@b"]
      (some "Asia/Jakarta") none (by decide)).2.1⟩

/-- C6: in every valid invocation that reaches the send, `--status Failed`
is embedded in the body as the string "Fail", and any other accepted
status value is embedded unchanged. -/
theorem email_status_normalization (w : NotifyEmail.World) (env : NotifyEmail.Env)
    (args : NotifyEmail.Args) (port : Int)
    (hchoice : args.status ∈ NotifyEmail.statusChoices)
    (hport : pyIntParse (env.SMTP_PORT.getD "587") = some port)
    (hhost : pyTruthyOpt env.SMTP_HOST = true)
    (hsender : pyTruthyOpt env.EMAIL_FROM = true)
    (hrec : NotifyEmail.recipientsOf env args ≠ [])
    (hsend : w.sendOk = true) :
    ∃ ev m warned, NotifyEmail.main w env args = .sent ev m warned ∧
      m.bodyText = NotifyEmail.emailBody args.site
        (if args.status = "Failed" then "Fail" else args.status) args.duration ∧
      (args.status = "Failed" → strContains m.bodyText "Fail") ∧
      (args.status ≠ "Failed" → strContains m.bodyText args.status) := by
  refine ⟨_, _, _, email_main_success_shape w env args port hport hhost hsender hrec hsend,
    ?_, ?_, ?_⟩
  · rw [attach_file_bodyText]
    rfl
  · intro hf
    rw [attach_file_bodyText]
    show strContains (NotifyEmail.emailBody args.site
      (if args.status = "Failed" then "Fail" else args.status) args.duration) "Fail"
    rw [if_pos hf]
    exact emailBody_contains_status _ _ _
  · intro hnf
    rw [attach_file_bodyText]
    show strContains (NotifyEmail.emailBody args.site
      (if args.status = "Failed" then "Fail" else args.status) args.duration) args.status
    rw [if_neg hnf]
    exact emailBody_contains_status _ _ _

/-- Witness for C6 at `--status Failed`. -/
theorem email_status_normalization_witness :
    ("Failed" : String) ∈ NotifyEmail.statusChoices ∧
      ∃ ev m warned,
        NotifyEmail.main Wex ⟨some "h", none, none, none, some "f@x", some "a@b", none⟩
          ⟨"s", "Failed", "1", none, none⟩ = .sent ev m warned ∧
        m.bodyText = NotifyEmail.emailBody "s"
          (if ("Failed" : String) = "Failed" then "Fail" else "Failed") "1" ∧
        (("Failed" : String) = "Failed" → strContains m.bodyText "Fail") ∧
        (("Failed" : String) ≠ "Failed" → strContains m.bodyText "Failed") :=
  ⟨by decide,
    email_status_normalization Wex ⟨some "h", none, none, none, some "f@x", some "a@b", none⟩
      ⟨"s", "Failed", "1", none, none⟩ 587 (by decide) (by decide) rfl rfl (by decide) rfl⟩

/-- C8: when `--report` names a path that does not exist, `attach_file`
prints the warning (flag `true`), the email is exactly the unattached
`build_message` output (no attachment), and the run still exits 0 when the
send succeeds. -/
theorem email_missing_attachment (w : NotifyEmail.World) (env : NotifyEmail.Env)
    (args : NotifyEmail.Args) (port : Int) (p : String)
    (hport : pyIntParse (env.SMTP_PORT.getD "587") = some port)
    (hhost : pyTruthyOpt env.SMTP_HOST = true)
    (hsender : pyTruthyOpt env.EMAIL_FROM = true)
    (hrec : NotifyEmail.recipientsOf env args ≠ [])
    (hsend : w.sendOk = true)
    (hrep : args.report = some p) (hpne : p ≠ "") (hmiss : w.fsExists p = false) :
    (∃ ev, NotifyEmail.main w env args =
      .sent ev
        (NotifyEmail.build_message w args.site
          (if args.status = "Failed" then "Fail" else args.status) args.duration
          (env.EMAIL_FROM.getD "") (NotifyEmail.recipientsOf env args)
          (some (env.TZ.getD "Asia/Jakarta")) env.TZ) true) ∧
      (NotifyEmail.main w env args).exitCode = some 0 ∧
      (NotifyEmail.build_message w args.site
        (if args.status = "Failed" then "Fail" else args.status) args.duration
        (env.EMAIL_FROM.getD "") (NotifyEmail.recipientsOf env args)
        (some (env.TZ.getD "Asia/Jakarta")) env.TZ).attachments = [] := by
  have hshape := email_main_success_shape w env args port hport hhost hsender hrec hsend
  have hatt : NotifyEmail.attach_file w
      (NotifyEmail.build_message w args.site
        (if args.status = "Failed" then "Fail" else args.status) args.duration
        (env.EMAIL_FROM.getD "") (NotifyEmail.recipientsOf env args)
        (some (env.TZ.getD "Asia/Jakarta")) env.TZ) args.report =
      (NotifyEmail.build_message w args.site
        (if args.status = "Failed" then "Fail" else args.status) args.duration
        (env.EMAIL_FROM.getD "") (NotifyEmail.recipientsOf env args)
        (some (env.TZ.getD "Asia/Jakarta")) env.TZ, true) := by
    rw [hrep]
    simp only [NotifyEmail.attach_file]
    rw [if_neg hpne, hmiss]
    rfl
  rw [hshape, hatt]
  exact ⟨⟨_, rfl⟩, rfl, rfl⟩

/-- Witness for C8 at a missing report path. -/
theorem email_missing_attachment_witness :
    Wex.fsExists "missing.html" = false ∧
      (NotifyEmail.main Wex ⟨some "h", none, none, none, some "f@x", some "a@b", none⟩
        ⟨"s", "Success", "1", some "missing.html", none⟩).exitCode = some 0 :=
  ⟨rfl,
    (email_missing_attachment Wex ⟨some "h", none, none, none, some "f@x", some "a@b", none⟩
      ⟨"s", "Success", "1", some "missing.html", none⟩ 587 "missing.html"
      (by decide) rfl rfl (by decide) rfl rfl (by decide) rfl).2.1⟩

/-- C3: `send_email` selects the transport solely from the port value:
465 gives implicit TLS from the very first step; any other port gives a
plaintext connect, a handshake and a STARTTLS attempt, and when the server
refuses the upgrade the message is still sent (over plaintext). -/
theorem send_email_transport_mode (port : Int) (user password : String) (stls : Bool) :
    (port = 465 →
      NotifyEmail.send_email port user password stls =
        .connectImplicitTLS :: (NotifyEmail.loginEvents user password ++ [.sendMessage])) ∧
    (port ≠ 465 →
      NotifyEmail.send_email port user password stls =
        .connectPlain :: .ehlo ::
          ((if stls then [.starttlsOk, .ehlo] else [.starttlsRefused]) ++
            NotifyEmail.loginEvents user password ++ [.sendMessage]) ∧
      (stls = false → .starttlsOk ∉ NotifyEmail.send_email port user password stls)) ∧
    .sendMessage ∈ NotifyEmail.send_email port user password stls := by
  refine ⟨?_, ?_, ?_⟩
  · rintro rfl
    unfold NotifyEmail.send_email
    rw [if_pos (by decide : toString (465 : Int) = "465")]
  · intro hne
    have hcond : ¬ (toString port = "465") := fun h => hne (toString_eq_465 h)
    unfold NotifyEmail.send_email
    rw [if_neg hcond]
    refine ⟨rfl, ?_⟩
    rintro rfl
    simp [NotifyEmail.loginEvents]
  · unfold NotifyEmail.send_email
    split <;> simp [NotifyEmail.loginEvents]

/-- Witness for C3 at ports 465 and 587. -/
theorem send_email_transport_mode_witness :
    NotifyEmail.send_email 465 "u" "p" true =
      .connectImplicitTLS :: (NotifyEmail.loginEvents "u" "p" ++ [.sendMessage]) ∧
    NotifyEmail.send_email 587 "u" "p" false =
      .connectPlain :: .ehlo ::
        ((if false then [.starttlsOk, .ehlo] else [.starttlsRefused]) ++
          NotifyEmail.loginEvents "u" "p" ++ [.sendMessage]) ∧
    NotifyEmail.SmtpEvent.sendMessage ∈ NotifyEmail.send_email 587 "u" "p" false :=
  ⟨(send_email_transport_mode 465 "u" "p" true).1 rfl,
    ((send_email_transport_mode 587 "u" "p" false).2.1 (by decide)).1,
    (send_email_transport_mode 587 "u" "p" false).2.2⟩

theorem tgText_contains_badge (args : NotifyTelegram.Args) (now_str : String) :
    strContains (NotifyTelegram.tgText args now_str) (NotifyTelegram.badgeOf args.status) := by
  unfold NotifyTelegram.tgText
  simp only [List.cons_append, List.nil_append]
  rw [pyJoin_cons_cons, pyJoin_cons_cons]
  generalize pyJoin "\n" _ = R
  refine ⟨"<b>PageSpeed Insight Report</b>" ++ "\n" ++ "Status: <b>",
    "</b>" ++ ("\n" ++ R), ?_⟩
  apply String.ext
  simp only [String.data_append, List.append_assoc]

/-- C7: a `--status` whose trimmed upper-cased form is "FAIL" or "FAILED"
renders a message containing "❌ FAILED"; every other status renders one
containing "✅ SUCCESS". -/
theorem telegram_badge (args : NotifyTelegram.Args) (now_str : String) :
    ((pyUpper (pyStrip args.status) = "FAIL" ∨ pyUpper (pyStrip args.status) = "FAILED") →
      strContains (NotifyTelegram.tgText args now_str) "❌ FAILED") ∧
    (¬ (pyUpper (pyStrip args.status) = "FAIL" ∨ pyUpper (pyStrip args.status) = "FAILED") →
      strContains (NotifyTelegram.tgText args now_str) "✅ SUCCESS") := by
  constructor
  · intro h
    have hb : NotifyTelegram.badgeOf args.status = "❌ FAILED" := by
      show (if pyUpper (pyStrip args.status) = "FAIL" ∨ pyUpper (pyStrip args.status) = "FAILED"
        then "❌ FAILED" else "✅ SUCCESS") = "❌ FAILED"
      rw [if_pos h]
    have hc := tgText_contains_badge args now_str
    rwa [hb] at hc
  · intro h
    have hb : NotifyTelegram.badgeOf args.status = "✅ SUCCESS" := by
      show (if pyUpper (pyStrip args.status) = "FAIL" ∨ pyUpper (pyStrip args.status) = "FAILED"
        then "❌ FAILED" else "✅ SUCCESS") = "✅ SUCCESS"
      rw [if_neg h]
    have hc := tgText_contains_badge args now_str
    rwa [hb] at hc

/-- Witness for C7 at `--status fail` and `--status success`. -/
theorem telegram_badge_witness :
    (pyUpper (pyStrip "fail") = "FAIL" ∨ pyUpper (pyStrip "fail") = "FAILED") ∧
      strContains (NotifyTelegram.tgText ⟨"fail", "https://x", none, none, none⟩ "now")
        "❌ FAILED" ∧
      strContains (NotifyTelegram.tgText ⟨"success", "https://x", none, none, none⟩ "now")
        "✅ SUCCESS" :=
  ⟨by decide,
    (telegram_badge ⟨"fail", "https://x", none, none, none⟩ "now").1 (by decide),
    (telegram_badge ⟨"success", "https://x", none, none, none⟩ "now").2 (by decide)⟩

/-- C4: once the required env variables resolve, a decoded response whose
"ok" flag is `false` makes the run print the raw response and exit 1,
while an "ok" flag of `true` yields the confirmation and exit 0. -/
theorem telegram_ok_flag (env : NotifyTelegram.Env) (args : NotifyTelegram.Args)
    (now_str : String) (res : List (String × NotifyTelegram.PyJson)) (token chat_id : String)
    (htok : NotifyTelegram.envRequired env.TELEGRAM_BOT_TOKEN = some token)
    (hchat : NotifyTelegram.envRequired env.TELEGRAM_CHAT_ID = some chat_id) :
    (NotifyTelegram.dictGet res "ok" = some (.bool false) →
      NotifyTelegram.main env args now_str res =
        .ran (NotifyTelegram.send_message token chat_id (NotifyTelegram.tgText args now_str))
          (.exit1 res) ∧
      (NotifyTelegram.TgResult.exit1 res).exitCode = 1) ∧
    (NotifyTelegram.dictGet res "ok" = some (.bool true) →
      NotifyTelegram.main env args now_str res =
        .ran (NotifyTelegram.send_message token chat_id (NotifyTelegram.tgText args now_str))
          .exit0 ∧
      NotifyTelegram.TgResult.exit0.exitCode = 0) := by
  have hmain : NotifyTelegram.main env args now_str res =
      .ran (NotifyTelegram.send_message token chat_id (NotifyTelegram.tgText args now_str))
        (NotifyTelegram.handleResponse res) := by
    simp only [NotifyTelegram.main, htok, hchat]
  constructor
  · intro h
    have hh : NotifyTelegram.handleResponse res = .exit1 res := by
      simp [NotifyTelegram.handleResponse, h, NotifyTelegram.PyJson.truthy]
    rw [hmain, hh]
    exact ⟨rfl, rfl⟩
  · intro h
    have hh : NotifyTelegram.handleResponse res = .exit0 := by
      simp [NotifyTelegram.handleResponse, h, NotifyTelegram.PyJson.truthy]
    rw [hmain, hh]
    exact ⟨rfl, rfl⟩

/-- Witness for C4 at both flag values. -/
theorem telegram_ok_flag_witness :
    NotifyTelegram.dictGet [("ok", NotifyTelegram.PyJson.bool false)] "ok" =
      some (NotifyTelegram.PyJson.bool false) ∧
      NotifyTelegram.main ⟨some "T", some "C"⟩ ⟨"Success", "https://x", none, none, none⟩
        "now" [("ok", NotifyTelegram.PyJson.bool false)] =
        .ran (NotifyTelegram.send_message "T" "C"
          (NotifyTelegram.tgText ⟨"Success", "https://x", none, none, none⟩ "now"))
          (.exit1 [("ok", NotifyTelegram.PyJson.bool false)]) ∧
      NotifyTelegram.main ⟨some "T", some "C"⟩ ⟨"Success", "https://x", none, none, none⟩
        "now" [("ok", NotifyTelegram.PyJson.bool true)] =
        .ran (NotifyTelegram.send_message "T" "C"
          (NotifyTelegram.tgText ⟨"Success", "https://x", none, none, none⟩ "now"))
          .exit0 :=
  ⟨rfl,
    ((telegram_ok_flag ⟨some "T", some "C"⟩ ⟨"Success", "https://x", none, none, none⟩ "now"
      [("ok", NotifyTelegram.PyJson.bool false)] "T" "C" rfl rfl).1 rfl).1,
    ((telegram_ok_flag ⟨some "T", some "C"⟩ ⟨"Success", "https://x", none, none, none⟩ "now"
      [("ok", NotifyTelegram.PyJson.bool true)] "T" "C" rfl rfl).2 rfl).1⟩

/-- C10: a decoded response object with no "ok" key at all is treated as a
failure: the raw response is printed and the exit code is 1, never 0. -/
theorem telegram_missing_ok_key (env : NotifyTelegram.Env) (args : NotifyTelegram.Args)
    (now_str : String) (res : List (String × NotifyTelegram.PyJson)) (token chat_id : String)
    (htok : NotifyTelegram.envRequired env.TELEGRAM_BOT_TOKEN = some token)
    (hchat : NotifyTelegram.envRequired env.TELEGRAM_CHAT_ID = some chat_id)
    (hmiss : NotifyTelegram.dictGet res "ok" = none) :
    NotifyTelegram.main env args now_str res =
      .ran (NotifyTelegram.send_message token chat_id (NotifyTelegram.tgText args now_str))
        (.exit1 res) ∧
    (NotifyTelegram.TgResult.exit1 res).exitCode = 1 ∧
    (NotifyTelegram.TgResult.exit1 res).exitCode ≠ 0 := by
  have hh : NotifyTelegram.handleResponse res = .exit1 res := by
    simp [NotifyTelegram.handleResponse, hmiss, NotifyTelegram.PyJson.truthy]
  have hmain : NotifyTelegram.main env args now_str res =
      .ran (NotifyTelegram.send_message token chat_id (NotifyTelegram.tgText args now_str))
        (NotifyTelegram.handleResponse res) := by
    simp only [NotifyTelegram.main, htok, hchat]
  rw [hmain, hh]
  exact ⟨rfl, rfl, Nat.one_ne_zero⟩

/-- Witness for C10 at a response without the "ok" key. -/
theorem telegram_missing_ok_key_witness :
    NotifyTelegram.dictGet ([("result", NotifyTelegram.PyJson.str "x")]) "ok" = none ∧
      NotifyTelegram.main ⟨some "T", some "C"⟩ ⟨"Success", "https://x", none, none, none⟩
        "now" [("result", NotifyTelegram.PyJson.str "x")] =
        .ran (NotifyTelegram.send_message "T" "C"
          (NotifyTelegram.tgText ⟨"Success", "https://x", none, none, none⟩ "now"))
          (.exit1 [("result", NotifyTelegram.PyJson.str "x")]) :=
  ⟨rfl,
    (telegram_missing_ok_key ⟨some "T", some "C"⟩ ⟨"Success", "https://x", none, none, none⟩
      "now" [("result", NotifyTelegram.PyJson.str "x")] "T" "C" rfl rfl rfl).1⟩

/-- C5: `send_message` issues one POST to
`https://api.telegram.org/bot<TOKEN>/sendMessage` whose form fields are
exactly `chat_id`, `text`, `parse_mode=HTML` and
`disable_web_page_preview=true`; a run that passes env validation performs
exactly one such request. -/
theorem send_message_request (token chat_id text : String) :
    (NotifyTelegram.send_message token chat_id text).url =
      "https://api.telegram.org/bot" ++ token ++ "/sendMessage" ∧
    (NotifyTelegram.send_message token chat_id text).httpMethod = "POST" ∧
    (NotifyTelegram.send_message token chat_id text).fields =
      [("chat_id", .str chat_id), ("text", .str text), ("parse_mode", .str "HTML"),
        ("disable_web_page_preview", .bool true)] ∧
    (∀ (env : NotifyTelegram.Env) (args : NotifyTelegram.Args) (now_str : String)
        (res : List (String × NotifyTelegram.PyJson)),
      NotifyTelegram.envRequired env.TELEGRAM_BOT_TOKEN = some token →
      NotifyTelegram.envRequired env.TELEGRAM_CHAT_ID = some chat_id →
      (NotifyTelegram.main env args now_str res).requestCount = 1) := by
  refine ⟨rfl, rfl, rfl, ?_⟩
  intro env args now_str res htok hchat
  simp only [NotifyTelegram.main, htok, hchat]
  rfl

/-- Witness for C5 at a concrete token, chat id and environment. -/
theorem send_message_request_witness :
    (NotifyTelegram.send_message "T" "C" "hello").url =
      "https://api.telegram.org/bot" ++ "T" ++ "/sendMessage" ∧
      (NotifyTelegram.main ⟨some "T", some "C"⟩ ⟨"Success", "https://x", none, none, none⟩
        "now" []).requestCount = 1 :=
  ⟨(send_message_request "T" "C" "hello").1,
    (send_message_request "T" "C" "hello").2.2.2 ⟨some "T", some "C"⟩
      ⟨"Success", "https://x", none, none, none⟩ "now" [] rfl rfl⟩
